import Mathlib

/-!
Verification of the ptutils distributed epoch orchestrator and
checkpoint/resume state machine, shallowly embedded from
`ptutils/model_training/trainer.py` and
`ptutils/model_training/supervised_imagenet_trainer.py`.

Metric scalars (losses, accuracies) are embedded as rationals; the
opaque model / optimizer state blobs are embedded as natural numbers.
The compute engine (loss function, data loading) is an external
collaborator, so per-epoch metric outcomes are supplied by an `Oracle`.
-/

/-- Metric scalar values (losses, accuracies). -/
abbrev Metric := ℚ

/-- Opaque state blob (serialized model or optimizer state dict). -/
abbrev Blob := Nat

/-- The `self.results` dictionary of `SupervisedImageNetTrainer`:
six append-only lists keyed by (metric, phase). -/
structure Results where
  lossesTrain : List Metric
  lossesVal : List Metric
  accsTop1Train : List Metric
  accsTop1Val : List Metric
  accsTop5Train : List Metric
  accsTop5Val : List Metric
  deriving DecidableEq

/-- The empty results dictionary created in
`SupervisedImageNetTrainer.__init__` when no checkpoint was loaded. -/
def Results.empty : Results := ⟨[], [], [], [], [], []⟩

/-- Mutable trainer state: `current_epoch`, `results`, `best_acc`,
`is_best`, and the model / optimizer states. -/
structure TrainerState where
  current_epoch : Nat
  results : Results
  best_acc : Metric
  is_best : Bool
  model_state : Blob
  optimizer_state : Blob
  deriving DecidableEq

/-- `best_acc = -1.0` sentinel set in `SupervisedImageNetTrainer.__init__`. -/
def initial_best_acc : Metric := -1

/-- Fresh trainer state after `__init__` without a resume checkpoint:
`current_epoch = 0`, empty results, `best_acc = -1.0`, `is_best = False`. -/
def initState : TrainerState :=
  ⟨0, Results.empty, initial_best_acc, false, 0, 0⟩

/-- The `curr_state` dictionary built in
`SupervisedImageNetTrainer.save_checkpoint`. -/
structure CheckpointState where
  epoch : Nat
  state_dict : Blob
  optimizer : Blob
  results : Results
  curr_best_acc : Metric
  deriving DecidableEq

/-- Construction of `curr_state` from the live trainer state
(`save_checkpoint`, lines 364-370). -/
def mkCurrState (st : TrainerState) : CheckpointState :=
  ⟨st.current_epoch, st.model_state, st.optimizer_state, st.results, st.best_acc⟩

/-- The shared validation / database-push gate,
`current_epoch % save_freq == 0 or current_epoch + 1 == num_epochs`,
appearing verbatim in `validate` (lines 281-283) and
`save_checkpoint` (lines 375-377). -/
def validateGate (e F N : Nat) : Bool :=
  (e % F == 0) || (e + 1 == N)

/-- Modelled from the spec: `check_best_accuracy` lives in
`train_utils.py`, which is absent from src/; spec section 4.4 defines it as
the pure best tracker with `new_best = max(candidate, previous_best)` and
`isBestThisCall = candidate > previous_best` (strict). -/
def check_best_accuracy (acc best : Metric) : Metric × Bool :=
  if best < acc then (acc, true) else (best, false)

/-- A checkpoint file on disk: a serialized dictionary whose required keys
may individually be absent (`Option`), mirroring the key-presence asserts
of `load_checkpoint` (lines 423-427). -/
structure CheckpointFile where
  epoch : Option Nat
  state_dict : Option Blob
  optimizer : Option Blob
  results : Option Results
  curr_best_acc : Option Metric
  deriving DecidableEq

/-- Serialization of a saved `curr_state` into a checkpoint file:
every required key is present. -/
def fileOfState (c : CheckpointState) : CheckpointFile :=
  ⟨some c.epoch, some c.state_dict, some c.optimizer, some c.results,
   some c.curr_best_acc⟩

/-- Fatal errors of `load_checkpoint`: the `ValueError` raised when the
path is not a file, and the `AssertionError` raised when a required key
is missing from the loaded record. -/
inductive LoadError
  | notFound
  | missingKey
  deriving DecidableEq

/-- `SupervisedImageNetTrainer.load_checkpoint` (lines 394-443): the
filesystem at the configured resume path is `none` when no file exists
there.  On success the trainer state is populated with
`current_epoch = epoch + 1`, the saved results (wholesale), the model and
optimizer states, and the saved best accuracy. -/
def load_checkpoint (file : Option CheckpointFile) (st : TrainerState) :
    Except LoadError TrainerState :=
  match file with
  | none => .error .notFound
  | some cpt =>
    match cpt.epoch, cpt.results, cpt.state_dict, cpt.optimizer,
        cpt.curr_best_acc with
    | some e, some res, some sd, some op, some b =>
      .ok { st with
              current_epoch := e + 1
              results := res
              model_state := sd
              optimizer_state := op
              best_acc := b }
    | _, _, _, _, _ => .error .missingKey

/-- Keys of the `curr_state` checkpoint dictionary. -/
inductive CKey
  | epoch
  | state_dict
  | optimizer
  | results
  | curr_best_acc
  deriving DecidableEq

/-- Keys of a record pushed to the metadata store: `exp_id` plus a subset
of the checkpoint keys. -/
inductive RKey
  | exp_id
  | ckey (k : CKey)
  deriving DecidableEq

/-- Values stored under the keys of a record. -/
inductive CVal
  | nat (n : Nat)
  | blob (b : Blob)
  | res (r : Results)
  | metric (q : Metric)
  | str (s : String)
  deriving DecidableEq

/-- Dictionary lookup `curr_state[k]`. -/
def lookupState (c : CheckpointState) : CKey → CVal
  | .epoch => .nat c.epoch
  | .state_dict => .blob c.state_dict
  | .optimizer => .blob c.optimizer
  | .results => .res c.results
  | .curr_best_acc => .metric c.curr_best_acc

/-- The `save_keys` argument passed by `save_checkpoint` to `_save_to_db`
(line 381): `["epoch", "results", "curr_best_acc"]`. -/
def save_keys : List CKey := [.epoch, .results, .curr_best_acc]

/-- A record pushed to the metadata store: an ordered key-value dictionary. -/
abbrev DbRecord := List (RKey × CVal)

/-- The record built by `Trainer._save_to_db` (lines 112-113):
`{"exp_id": exp_id}` updated with `{k: curr_state[k] for k in save_keys}`. -/
def mkDbRecord (eid : String) (c : CheckpointState) : DbRecord :=
  (RKey.exp_id, CVal.str eid) ::
    save_keys.map (fun k => (RKey.ckey k, lookupState c k))

/-- The MongoDB interface handle (`self.database`); its construction
parameters from `Trainer.__init__`. -/
structure Database where
  db_name : String
  coll_name : String
  port : Nat
  deriving DecidableEq

/-- A concrete database handle used for closed instances. -/
def db0 : Database := ⟨"dbname", "collname", 27017⟩

/-- `Trainer._save_to_db` (lines 106-115): builds the record from
`curr_state` and pushes it only when `rank == 0` and `database is not
None`; returns the pushed records and the untouched `curr_state`. -/
def save_to_db (rank : Nat) (database : Option Database) (eid : String)
    (c : CheckpointState) : List DbRecord × CheckpointState :=
  (if rank = 0 ∧ database.isSome then [mkDbRecord eid c] else [], c)

/-- Observable persistence events of one checkpoint phase: a metadata
store push, or the unconditional local snapshot call
(`save_checkpoint(state, save_dir, is_best, save_epoch, rank, tpu)`). -/
inductive SaveEvent
  | dbPush (record : DbRecord)
  | localSave (c : CheckpointState) (isBest : Bool) (saveEpoch : Option Nat)
  deriving DecidableEq

/-- Per-epoch metric outcomes produced by the opaque compute engine and
data source (epoch-level averages computed by the batch loops). -/
structure Oracle where
  trainLoss : Nat → Metric
  trainTop1 : Nat → Metric
  trainTop5 : Nat → Metric
  valLoss : Nat → Metric
  valTop1 : Nat → Metric
  valTop5 : Nat → Metric

/-- Oracle with all metrics zero. -/
def oracle0 : Oracle :=
  ⟨fun _ => 0, fun _ => 0, fun _ => 0, fun _ => 0, fun _ => 0, fun _ => 0⟩

/-- The configuration keys the epoch loop reads: `num_epochs`,
`save_freq`, `exp_id`. -/
structure RunConfig where
  num_epochs : Nat
  save_freq : Nat
  exp_id : String

/-- `SupervisedImageNetTrainer.train_one_epoch`, epoch-level effect on
trainer state (lines 270-272): appends the epoch's average train metrics
to the train results lists. -/
def train_one_epoch (o : Oracle) (st : TrainerState) : TrainerState :=
  { st with results :=
      { st.results with
          lossesTrain := st.results.lossesTrain ++ [o.trainLoss st.current_epoch]
          accsTop1Train := st.results.accsTop1Train ++ [o.trainTop1 st.current_epoch]
          accsTop5Train := st.results.accsTop5Train ++ [o.trainTop5 st.current_epoch] } }

/-- `SupervisedImageNetTrainer.validate` (lines 274-352): when the gate
holds, appends the epoch's average val metrics to the val results lists
and updates `(best_acc, is_best)` via `check_best_accuracy`; otherwise
does nothing. -/
def validate (cfg : RunConfig) (o : Oracle) (st : TrainerState) : TrainerState :=
  if validateGate st.current_epoch cfg.save_freq cfg.num_epochs then
    { st with
        results :=
          { st.results with
              lossesVal := st.results.lossesVal ++ [o.valLoss st.current_epoch]
              accsTop1Val := st.results.accsTop1Val ++ [o.valTop1 st.current_epoch]
              accsTop5Val := st.results.accsTop5Val ++ [o.valTop5 st.current_epoch] }
        best_acc := (check_best_accuracy (o.valTop1 st.current_epoch) st.best_acc).1
        is_best := (check_best_accuracy (o.valTop1 st.current_epoch) st.best_acc).2 }
  else st

/-- `SupervisedImageNetTrainer.save_checkpoint` (lines 354-392): builds
`curr_state`; when the gate holds, sets `save_epoch` and pushes to the
metadata store via `_save_to_db`; always emits the local snapshot call
with the current `is_best` flag. -/
def save_checkpoint (cfg : RunConfig) (database : Option Database)
    (rank : Nat) (st : TrainerState) : List SaveEvent × TrainerState :=
  let curr := mkCurrState st
  if validateGate st.current_epoch cfg.save_freq cfg.num_epochs then
    let d := save_to_db rank database cfg.exp_id curr
    (d.1.map SaveEvent.dbPush ++
       [SaveEvent.localSave curr st.is_best (some st.current_epoch)], st)
  else
    ([SaveEvent.localSave curr st.is_best none], st)

/-- One iteration of the `Trainer.train` loop body (lines 217-229):
set `current_epoch = i`, then `train_one_epoch`, `validate`,
`save_checkpoint`. -/
def runEpoch (cfg : RunConfig) (o : Oracle) (database : Option Database)
    (rank : Nat) (st : TrainerState) (e : Nat) :
    TrainerState × List SaveEvent :=
  let st1 := { st with current_epoch := e }
  let st2 := train_one_epoch o st1
  let st3 := validate cfg o st2
  let sv := save_checkpoint cfg database rank st3
  (sv.2, sv.1)

/-- The `for i in range(self.current_epoch, num_epochs)` loop of
`Trainer.train`, with explicit remaining-epoch fuel. -/
def runEpochs (cfg : RunConfig) (o : Oracle) (database : Option Database)
    (rank : Nat) : Nat → Nat → TrainerState → TrainerState × List SaveEvent
  | 0, _, st => (st, [])
  | n + 1, e, st =>
    let r1 := runEpoch cfg o database rank st e
    let r2 := runEpochs cfg o database rank n (e + 1) r1.1
    (r2.1, r1.2 ++ r2.2)

/-- `Trainer.train` (lines 209-231): runs epochs `current_epoch` through
`num_epochs - 1`. -/
def train (cfg : RunConfig) (o : Oracle) (database : Option Database)
    (rank : Nat) (st : TrainerState) : TrainerState × List SaveEvent :=
  runEpochs cfg o database rank (cfg.num_epochs - st.current_epoch)
    st.current_epoch st

/-- Number of metadata-store pushes among the events. -/
def countDbPush (evs : List SaveEvent) : Nat :=
  (evs.filter (fun ev => match ev with | .dbPush _ => true | _ => false)).length

/-- Number of local snapshot calls among the events. -/
def countLocalSave (evs : List SaveEvent) : Nat :=
  (evs.filter (fun ev => match ev with
    | .localSave _ _ _ => true
    | _ => false)).length

/-- Epoch numbers recorded by the local snapshot calls, in order. -/
def localEpochs (evs : List SaveEvent) : List Nat :=
  evs.filterMap (fun ev => match ev with
    | .localSave c _ _ => some c.epoch
    | _ => none)

/-- The `is_best` flags consumed by the local snapshot calls, in order. -/
def consumedBests (evs : List SaveEvent) : List Bool :=
  evs.filterMap (fun ev => match ev with
    | .localSave _ b _ => some b
    | _ => none)

/-- Modelled from the spec: `AverageMeter` lives in `train_utils.py`,
absent from src/; spec section 3 (EpochMetrics) defines a running average
over seen examples where each update carries a batch value and a weight
equal to the batch size: `sum += value * weight`, `count += weight`,
`avg = sum / count`. -/
structure AverageMeter where
  sum : Metric
  count : Nat
  deriving DecidableEq

/-- Modelled from the spec: streaming update of the running average. -/
def AverageMeter.update (m : AverageMeter) (v : Metric) (n : Nat) :
    AverageMeter :=
  ⟨m.sum + v * (n : ℚ), m.count + n⟩

/-- Modelled from the spec: the running average value. -/
def AverageMeter.avg (m : AverageMeter) : Metric := m.sum / (m.count : ℚ)

/-- Modelled from the spec: `reduce_metric` lives in `train_utils.py`,
absent from src/; spec section 4.2 defines the MultiProcess reduction as a
blocking collective all-reduce returning the arithmetic mean of the
per-worker values.  Given the vector of per-worker values, every worker
receives their mean. -/
def reduce_metric (vals : List Metric) : Metric :=
  vals.sum / (vals.length : ℚ)

/-- Modelled from the spec: `xm.mesh_reduce` with `np.mean` (external
collaborator, spec section 4.2 Mesh strategy): a named-barrier mesh
reduction returning the mean of the per-worker values. -/
def mesh_reduce (vals : List Metric) : Metric :=
  vals.sum / (vals.length : ℚ)

/-- The two execution topologies (spec WorkerTopology.kind): MultiProcess
is the GPU/DistributedDataParallel path (`use_tpu = False`), Mesh is the
TPU path (`use_tpu = True`). -/
inductive TopologyKind
  | multiProcess
  | mesh
  deriving DecidableEq

/-- The per-batch value folded into the running meters by
`train_one_epoch` (lines 213-220) and `validate` (lines 305-312), for
worker `w`, given the per-worker local batch values: on the TPU path the
local `loss.item()` is used; otherwise `reduce_metric` is applied first. -/
def repValue (kind : TopologyKind) (locals : List Metric) (w : Nat) : Metric :=
  match kind with
  | .multiProcess => reduce_metric locals
  | .mesh => locals.getD w 0

/-- The batch loop of `train_one_epoch` restricted to its metric folding
(lines 184-224): worker `w` folds one rep value per batch into its meter,
each with weight `n = data.size(0)`. -/
def foldBatches (kind : TopologyKind) (batches : List (List Metric))
    (w : Nat) (n : Nat) : AverageMeter :=
  batches.foldl (fun m locals => m.update (repValue kind locals w) n) ⟨0, 0⟩

/-- The end-of-epoch average reported by `train_one_epoch`
(lines 250-257): the meter average, additionally mesh-reduced across the
`W` workers on the TPU path. -/
def epochAverage (kind : TopologyKind) (batches : List (List Metric))
    (W : Nat) (n : Nat) : Metric :=
  match kind with
  | .multiProcess => (foldBatches .multiProcess batches 0 n).avg
  | .mesh =>
    mesh_reduce ((List.range W).map (fun w => (foldBatches .mesh batches w n).avg))

/-- Configuration slice checked by `Trainer.__init__` for the metadata
store (lines 36-50).  For each required key, the outer `Option` is key
presence in the config dictionary and the inner `Option` is the key's
value being non-`None`. -/
structure DbConfig where
  db_name : Option (Option String)
  coll_name : Option (Option String)
  exp_id : Option (Option String)
  use_mongodb : Bool
  port : Option (Option Nat)
  deriving DecidableEq

/-- Fatal `AssertionError`s of `Trainer.__init__`'s metadata-store setup:
a required key absent from the config, or present with value `None`. -/
inductive InitError
  | missingKey
  | noneValue
  deriving DecidableEq

/-- The metadata-store setup of `Trainer.__init__` (lines 36-50):
asserts `db_name`, `coll_name`, `exp_id` are present and non-`None`
unconditionally; only when `use_mongodb` also requires `port` and
constructs the `MongoInterface`, otherwise `self.database` stays `None`. -/
def trainer_init_db (cfg : DbConfig) : Except InitError (Option Database) :=
  match cfg.db_name, cfg.coll_name, cfg.exp_id with
  | some dbn, some cn, some ei =>
    match dbn, cn, ei with
    | some dbv, some cv, some _ =>
      if cfg.use_mongodb then
        match cfg.port with
        | some (some p) => .ok (some ⟨dbv, cv, p⟩)
        | some none => .error .noneValue
        | none => .error .missingKey
      else .ok none
    | _, _, _ => .error .noneValue
  | _, _, _ => .error .missingKey

/-- Observable metadata-store operations outside the save path. -/
inductive DbOp
  | sync
  deriving DecidableEq

/-- `Trainer.close_db` (lines 241-243): syncs only when `rank == 0` and
`database is not None`; otherwise a silent no-op. -/
def close_db (rank : Nat) (database : Option Database) : List DbOp :=
  if rank = 0 ∧ database.isSome then [DbOp.sync] else []

/-- Oracle whose validation top-1 accuracy is 1 at epoch 0 and 0 later. -/
def oracleC7 : Oracle :=
  ⟨fun _ => 0, fun _ => 0, fun _ => 0, fun _ => 0,
   fun e => if e = 0 then 1 else 0, fun _ => 0⟩

theorem validateGate_iff (e F N : Nat) (h : e < N) :
    validateGate e F N = true ↔ (e % F = 0 ∨ e = N - 1) := by
  simp only [validateGate, Bool.or_eq_true, beq_iff_eq]
  omega

theorem runEpoch_state (cfg : RunConfig) (o : Oracle) (db : Option Database)
    (rank : Nat) (st : TrainerState) (e : Nat) :
    (runEpoch cfg o db rank st e).1 =
      validate cfg o (train_one_epoch o { st with current_epoch := e }) := by
  unfold runEpoch save_checkpoint
  dsimp only
  split <;> rfl

theorem runEpoch_best_acc (cfg : RunConfig) (o : Oracle) (db : Option Database)
    (rank : Nat) (st : TrainerState) (e : Nat) :
    (runEpoch cfg o db rank st e).1.best_acc =
      if validateGate e cfg.save_freq cfg.num_epochs then
        (check_best_accuracy (o.valTop1 e) st.best_acc).1
      else st.best_acc := by
  rw [runEpoch_state]
  unfold validate train_one_epoch
  dsimp only
  split <;> rfl

theorem runEpoch_is_best (cfg : RunConfig) (o : Oracle) (db : Option Database)
    (rank : Nat) (st : TrainerState) (e : Nat) :
    (runEpoch cfg o db rank st e).1.is_best =
      if validateGate e cfg.save_freq cfg.num_epochs then
        (check_best_accuracy (o.valTop1 e) st.best_acc).2
      else st.is_best := by
  rw [runEpoch_state]
  unfold validate train_one_epoch
  dsimp only
  split <;> rfl

theorem runEpoch_current_epoch (cfg : RunConfig) (o : Oracle)
    (db : Option Database) (rank : Nat) (st : TrainerState) (e : Nat) :
    (runEpoch cfg o db rank st e).1.current_epoch = e := by
  rw [runEpoch_state]
  unfold validate train_one_epoch
  dsimp only
  split <;> rfl

theorem runEpoch_lossesTrain (cfg : RunConfig) (o : Oracle)
    (db : Option Database) (rank : Nat) (st : TrainerState) (e : Nat) :
    (runEpoch cfg o db rank st e).1.results.lossesTrain =
      st.results.lossesTrain ++ [o.trainLoss e] := by
  rw [runEpoch_state]
  unfold validate train_one_epoch
  dsimp only
  split <;> rfl

theorem runEpoch_lossesVal (cfg : RunConfig) (o : Oracle)
    (db : Option Database) (rank : Nat) (st : TrainerState) (e : Nat) :
    (runEpoch cfg o db rank st e).1.results.lossesVal =
      st.results.lossesVal ++
        (if validateGate e cfg.save_freq cfg.num_epochs then [o.valLoss e]
         else []) := by
  rw [runEpoch_state]
  unfold validate train_one_epoch
  dsimp only
  split
  · rfl
  · exact (List.append_nil _).symm

theorem countDbPush_append (a b : List SaveEvent) :
    countDbPush (a ++ b) = countDbPush a + countDbPush b := by
  simp [countDbPush, List.filter_append]

theorem countLocalSave_append (a b : List SaveEvent) :
    countLocalSave (a ++ b) = countLocalSave a + countLocalSave b := by
  simp [countLocalSave, List.filter_append]

theorem localEpochs_append (a b : List SaveEvent) :
    localEpochs (a ++ b) = localEpochs a ++ localEpochs b := by
  simp [localEpochs, List.filterMap_append]

theorem consumedBests_append (a b : List SaveEvent) :
    consumedBests (a ++ b) = consumedBests a ++ consumedBests b := by
  simp [consumedBests, List.filterMap_append]

theorem valCE (cfg : RunConfig) (o : Oracle) (st : TrainerState) (e : Nat) :
    (validate cfg o (train_one_epoch o { st with current_epoch := e })).current_epoch
      = e := by
  unfold validate train_one_epoch
  dsimp only
  split <;> rfl

theorem runEpoch_countDb (cfg : RunConfig) (o : Oracle) (db : Option Database)
    (rank : Nat) (st : TrainerState) (e : Nat) :
    countDbPush (runEpoch cfg o db rank st e).2 =
      if validateGate e cfg.save_freq cfg.num_epochs ∧ rank = 0 ∧ db.isSome
      then 1 else 0 := by
  unfold runEpoch save_checkpoint save_to_db
  dsimp only
  rw [valCE]
  by_cases hg : validateGate e cfg.save_freq cfg.num_epochs
  · by_cases hrd : rank = 0 ∧ db.isSome = true
    · simp [hg, hrd, countDbPush]
    · simp [hg, hrd, countDbPush]
  · simp [hg, countDbPush]

theorem runEpoch_countLocal (cfg : RunConfig) (o : Oracle)
    (db : Option Database) (rank : Nat) (st : TrainerState) (e : Nat) :
    countLocalSave (runEpoch cfg o db rank st e).2 = 1 := by
  unfold runEpoch save_checkpoint save_to_db
  dsimp only
  by_cases hg : validateGate
      (validate cfg o (train_one_epoch o { st with current_epoch := e })).current_epoch
      cfg.save_freq cfg.num_epochs
  · by_cases hrd : rank = 0 ∧ db.isSome = true
    · simp [hg, hrd, countLocalSave]
    · simp [hg, hrd, countLocalSave]
  · simp [hg, countLocalSave]

theorem runEpoch_localEpochs (cfg : RunConfig) (o : Oracle)
    (db : Option Database) (rank : Nat) (st : TrainerState) (e : Nat) :
    localEpochs (runEpoch cfg o db rank st e).2 = [e] := by
  unfold runEpoch save_checkpoint save_to_db mkCurrState
  dsimp only
  rw [valCE]
  by_cases hg : validateGate e cfg.save_freq cfg.num_epochs
  · by_cases hrd : rank = 0 ∧ db.isSome = true
    · simp [hg, hrd, localEpochs]
    · simp [hg, hrd, localEpochs]
  · simp [hg, localEpochs]

theorem runEpoch_consumedBests (cfg : RunConfig) (o : Oracle)
    (db : Option Database) (rank : Nat) (st : TrainerState) (e : Nat) :
    consumedBests (runEpoch cfg o db rank st e).2 =
      [if validateGate e cfg.save_freq cfg.num_epochs then
         (check_best_accuracy (o.valTop1 e) st.best_acc).2
       else st.is_best] := by
  have hib : (validate cfg o (train_one_epoch o { st with current_epoch := e })).is_best
      = if validateGate e cfg.save_freq cfg.num_epochs then
          (check_best_accuracy (o.valTop1 e) st.best_acc).2
        else st.is_best := by
    unfold validate train_one_epoch
    dsimp only
    split <;> rfl
  unfold runEpoch save_checkpoint save_to_db
  dsimp only
  rw [valCE, hib]
  by_cases hg : validateGate e cfg.save_freq cfg.num_epochs
  · by_cases hrd : rank = 0 ∧ db.isSome = true
    · simp [hg, hrd, consumedBests]
    · simp [hg, hrd, consumedBests]
  · simp [hg, consumedBests]

theorem runEpochs_countDb (cfg : RunConfig) (o : Oracle) (d : Database) :
    ∀ (n e : Nat) (st : TrainerState),
      countDbPush (runEpochs cfg o (some d) 0 n e st).2 =
        ((List.range' e n).filter
          (fun x => validateGate x cfg.save_freq cfg.num_epochs)).length
  | 0, e, st => by simp [runEpochs, countDbPush]
  | n + 1, e, st => by
    rw [runEpochs]
    dsimp only
    rw [countDbPush_append, runEpoch_countDb,
        runEpochs_countDb cfg o d n (e + 1) _, List.range'_succ]
    by_cases hg : validateGate e cfg.save_freq cfg.num_epochs
    · simp [hg, List.filter_cons]
      omega
    · simp [hg, List.filter_cons]

theorem runEpochs_countLocal (cfg : RunConfig) (o : Oracle)
    (db : Option Database) (rank : Nat) :
    ∀ (n e : Nat) (st : TrainerState),
      countLocalSave (runEpochs cfg o db rank n e st).2 = n
  | 0, _, st => by simp [runEpochs, countLocalSave]
  | n + 1, e, st => by
    rw [runEpochs]
    dsimp only
    rw [countLocalSave_append, runEpoch_countLocal,
        runEpochs_countLocal cfg o db rank n (e + 1) _]
    omega

theorem runEpochs_localEpochs (cfg : RunConfig) (o : Oracle)
    (db : Option Database) (rank : Nat) :
    ∀ (n e : Nat) (st : TrainerState),
      localEpochs (runEpochs cfg o db rank n e st).2 = List.range' e n
  | 0, _, st => by simp [runEpochs, localEpochs]
  | n + 1, e, st => by
    rw [runEpochs]
    dsimp only
    rw [localEpochs_append, runEpoch_localEpochs,
        runEpochs_localEpochs cfg o db rank n (e + 1) _, List.range'_succ]
    rfl

theorem runEpochs_lossesTrain_len (cfg : RunConfig) (o : Oracle)
    (db : Option Database) (rank : Nat) :
    ∀ (n e : Nat) (st : TrainerState),
      (runEpochs cfg o db rank n e st).1.results.lossesTrain.length =
        st.results.lossesTrain.length + n
  | 0, _, st => by simp [runEpochs]
  | n + 1, e, st => by
    rw [runEpochs]
    dsimp only
    rw [runEpochs_lossesTrain_len cfg o db rank n (e + 1) _,
        runEpoch_lossesTrain]
    simp
    omega

theorem runEpochs_lossesVal_len (cfg : RunConfig) (o : Oracle)
    (db : Option Database) (rank : Nat) :
    ∀ (n e : Nat) (st : TrainerState),
      (runEpochs cfg o db rank n e st).1.results.lossesVal.length =
        st.results.lossesVal.length +
          ((List.range' e n).filter
            (fun x => validateGate x cfg.save_freq cfg.num_epochs)).length
  | 0, _, st => by simp [runEpochs]
  | n + 1, e, st => by
    rw [runEpochs]
    dsimp only
    rw [runEpochs_lossesVal_len cfg o db rank n (e + 1) _,
        runEpoch_lossesVal, List.range'_succ]
    by_cases hg : validateGate e cfg.save_freq cfg.num_epochs
    · simp [hg, List.filter_cons]
      omega
    · simp [hg, List.filter_cons]

theorem ceil_div_step (F m : Nat) (hF : 0 < F) :
    (m + F) / F = (m + F - 1) / F + (if m % F = 0 then 1 else 0) := by
  cases m with
  | zero =>
    simp [Nat.div_self hF, Nat.div_eq_of_lt (show F - 1 < F by omega)]
  | succ k =>
    have h1 : k + 1 + F - 1 = k + F := by omega
    rw [h1, Nat.add_div_right _ hF, Nat.add_div_right _ hF, Nat.succ_div]
    by_cases hd : F ∣ k + 1
    · have hm : (k + 1) % F = 0 := Nat.mod_eq_zero_of_dvd hd
      simp [hd, hm]
    · have hm : (k + 1) % F ≠ 0 := fun h => hd (Nat.dvd_of_mod_eq_zero h)
      simp [hd, hm]

theorem count_multiples (F : Nat) (hF : 0 < F) :
    ∀ m : Nat,
      ((List.range m).filter (fun e => e % F == 0)).length = (m + F - 1) / F
  | 0 => by simp [Nat.div_eq_of_lt (show F - 1 < F by omega)]
  | m + 1 => by
    rw [List.range_succ, List.filter_append, List.length_append,
        count_multiples F hF m]
    have hs : (m + 1 + F - 1) / F = (m + F - 1) / F + (if m % F = 0 then 1 else 0) := by
      have h1 : m + 1 + F - 1 = m + F := by omega
      rw [h1, ceil_div_step F m hF]
    rw [hs]
    by_cases hm : m % F = 0
    · simp [hm, List.filter_cons]
    · simp [hm, List.filter_cons]

theorem gate_count (F N : Nat) (hF : 0 < F) (hN : 0 < N) :
    ((List.range N).filter (fun e => validateGate e F N)).length =
      (N - 1 + F - 1) / F + 1 := by
  obtain ⟨m, rfl⟩ : ∃ m, N = m + 1 := ⟨N - 1, by omega⟩
  rw [List.range_succ, List.filter_append, List.length_append]
  have hfc : (List.range m).filter (fun e => validateGate e F (m + 1)) =
      (List.range m).filter (fun e => e % F == 0) := by
    apply List.filter_congr
    intro e he
    have helt : e < m := List.mem_range.mp he
    have hne : (e + 1 == m + 1) = false := by
      simp only [beq_eq_false_iff_ne]
      omega
    simp [validateGate, hne]
  have hlast : validateGate m F (m + 1) = true := by
    simp [validateGate]
  rw [hfc, count_multiples F hF m]
  have hm1 : m + 1 - 1 + F - 1 = m + F - 1 := by omega
  rw [hm1]
  simp [List.filter_cons, hlast]

/-- C1: for every epoch `e < N` in a job with `save_freq = F` and
`num_epochs = N`, the metric-measuring body of `validate()` executes
(appends a validation entry) if and only if `e % F = 0` or `e = N - 1`;
for `N = 10`, `F = 3` the gate holds exactly at epochs 0, 3, 6, 9. -/
theorem c1_validation_gating (cfg : RunConfig) (o : Oracle) (st : TrainerState)
    (h : st.current_epoch < cfg.num_epochs) :
    ((validate cfg o st).results.lossesVal.length =
       st.results.lossesVal.length +
         if st.current_epoch % cfg.save_freq = 0 ∨
            st.current_epoch = cfg.num_epochs - 1
         then 1 else 0)
    ∧ (List.range 10).filter (fun e => validateGate e 3 10) = [0, 3, 6, 9] := by
  constructor
  · by_cases hg : validateGate st.current_epoch cfg.save_freq cfg.num_epochs
    · have hc := (validateGate_iff _ _ _ h).mp hg
      simp only [validate, if_pos hg]
      simp [hc]
    · have hc : ¬(st.current_epoch % cfg.save_freq = 0 ∨
          st.current_epoch = cfg.num_epochs - 1) :=
        fun hx => hg ((validateGate_iff _ _ _ h).mpr hx)
      simp only [validate, if_neg hg]
      simp [hc]
  · decide

theorem c1_validation_gating_witness :
    ((validate ⟨10, 3, "exp"⟩ oracle0 initState).results.lossesVal.length =
       initState.results.lossesVal.length +
         if (0 : Nat) % 3 = 0 ∨ (0 : Nat) = 10 - 1 then 1 else 0)
    ∧ (List.range 10).filter (fun e => validateGate e 3 10) = [0, 3, 6, 9] :=
  c1_validation_gating ⟨10, 3, "exp"⟩ oracle0 initState (by decide)

/-- C2: restoring a checkpoint saved at completed epoch `E` sets
`current_epoch = E + 1`, replaces the training history wholesale with the
saved history, and sets the best value to the saved best value; the
resumed loop then processes exactly epochs `E + 1 .. N - 1`, each of which
exceeds every completed epoch. -/
theorem c2_resume_round_trip (st fresh : TrainerState) (cfg : RunConfig)
    (o : Oracle) (db : Option Database) (rank : Nat) :
    (load_checkpoint (some (fileOfState (mkCurrState st))) fresh =
       Except.ok { fresh with
         current_epoch := st.current_epoch + 1
         results := st.results
         model_state := st.model_state
         optimizer_state := st.optimizer_state
         best_acc := st.best_acc })
    ∧ (localEpochs (train cfg o db rank
         { fresh with
             current_epoch := st.current_epoch + 1
             results := st.results
             model_state := st.model_state
             optimizer_state := st.optimizer_state
             best_acc := st.best_acc }).2 =
       List.range' (st.current_epoch + 1)
         (cfg.num_epochs - (st.current_epoch + 1)))
    ∧ (∀ e ∈ List.range' (st.current_epoch + 1)
          (cfg.num_epochs - (st.current_epoch + 1)),
        st.current_epoch < e) := by
  refine ⟨rfl, ?_, ?_⟩
  · simp only [train]
    exact runEpochs_localEpochs cfg o db rank _ _ _
  · intro e he
    have := List.mem_range'_1.mp he
    omega

theorem c2_resume_round_trip_witness :
    (load_checkpoint (some (fileOfState (mkCurrState initState))) initState =
       Except.ok { initState with
         current_epoch := 1
         results := initState.results
         model_state := initState.model_state
         optimizer_state := initState.optimizer_state
         best_acc := initState.best_acc })
    ∧ (localEpochs (train ⟨3, 2, "exp"⟩ oracle0 (some db0) 0
         { initState with
             current_epoch := 1
             results := initState.results
             model_state := initState.model_state
             optimizer_state := initState.optimizer_state
             best_acc := initState.best_acc }).2 = List.range' 1 2)
    ∧ (∀ e ∈ List.range' 1 2, 0 < e) :=
  c2_resume_round_trip initState initState ⟨3, 2, "exp"⟩ oracle0 (some db0) 0

/-- C3 counterexample: with `num_epochs = 2`, `save_freq = 2`
(coordinating worker, store enabled), the run pushes to the metadata
store at both epoch 0 (cadence) and epoch 1 (final epoch) — 2 pushes —
while the claimed formula `floor((N-1)/F) + 1` yields 1. -/
theorem c3_counterexample :
    countDbPush (train ⟨2, 2, "exp"⟩ oracle0 (some db0) 0 initState).2 = 2
    ∧ (2 - 1) / 2 + 1 = 1
    ∧ countDbPush (train ⟨2, 2, "exp"⟩ oracle0 (some db0) 0 initState).2 ≠
        (2 - 1) / 2 + 1 := by
  refine ⟨by decide, by decide, by decide⟩

/-- C3 (amended): for every run from scratch on the coordinating worker
(rank 0) with the metadata store enabled, `save_freq = F ≥ 1`,
`num_epochs = N ≥ 1`, the metadata store receives exactly
`ceil((N-1)/F) + 1 = ((N-1) + F - 1) / F + 1` pushes — one at every
epoch `e` with `e % F = 0` plus one at the final epoch `N - 1` — while
the full local snapshot is written on every one of the `N` epochs. -/
theorem c3_checkpoint_cadence (cfg : RunConfig) (o : Oracle)
    (hF : 0 < cfg.save_freq) (hN : 0 < cfg.num_epochs) :
    countDbPush (train cfg o (some db0) 0 initState).2 =
      (cfg.num_epochs - 1 + cfg.save_freq - 1) / cfg.save_freq + 1
    ∧ countLocalSave (train cfg o (some db0) 0 initState).2 =
        cfg.num_epochs := by
  constructor
  · simp only [train]
    rw [runEpochs_countDb cfg o db0 _ _ _]
    have h0 : initState.current_epoch = 0 := rfl
    rw [h0, Nat.sub_zero, ← List.range_eq_range']
    exact gate_count cfg.save_freq cfg.num_epochs hF hN
  · simp only [train]
    rw [runEpochs_countLocal cfg o (some db0) 0 _ _ _]
    rfl

theorem c3_checkpoint_cadence_witness :
    countDbPush (train ⟨10, 3, "exp"⟩ oracle0 (some db0) 0 initState).2 =
      (10 - 1 + 3 - 1) / 3 + 1
    ∧ countLocalSave (train ⟨10, 3, "exp"⟩ oracle0 (some db0) 0 initState).2
        = 10 :=
  c3_checkpoint_cadence ⟨10, 3, "exp"⟩ oracle0 (by decide) (by decide)

/-- C5: the best tracker is pure with `new_best = max(candidate, best)`
and `isBestThisCall = candidate > best` (strict): any candidate `x ≤ best`
leaves the best unchanged and is not flagged best; the best value is
monotonically non-decreasing under updates and across every epoch of the
loop; the initial best value `-1.0` is strictly below any valid
(non-negative) accuracy. -/
theorem c5_best_tracker (x best : Metric) (h : x ≤ best) :
    (check_best_accuracy x best).1 = best
    ∧ (check_best_accuracy x best).2 = false
    ∧ (∀ y b : Metric, (check_best_accuracy y b).1 = max y b)
    ∧ (∀ y b : Metric, (check_best_accuracy y b).2 = decide (b < y))
    ∧ (∀ y b : Metric, b ≤ (check_best_accuracy y b).1)
    ∧ initState.best_acc = initial_best_acc
    ∧ (∀ a : Metric, 0 ≤ a → initial_best_acc < a)
    ∧ (∀ (cfg : RunConfig) (o : Oracle) (db : Option Database) (rank : Nat)
         (st : TrainerState) (e : Nat),
         st.best_acc ≤ (runEpoch cfg o db rank st e).1.best_acc) := by
  refine ⟨?_, ?_, ?_, ?_, ?_, rfl, ?_, ?_⟩
  · simp [check_best_accuracy, not_lt.mpr h]
  · simp [check_best_accuracy, not_lt.mpr h]
  · intro y b
    by_cases hb : b < y
    · simp [check_best_accuracy, hb, max_eq_left (le_of_lt hb)]
    · simp [check_best_accuracy, hb, max_eq_right (not_lt.mp hb)]
  · intro y b
    by_cases hb : b < y <;> simp [check_best_accuracy, hb]
  · intro y b
    by_cases hb : b < y
    · simp only [check_best_accuracy, if_pos hb]
      exact le_of_lt hb
    · simp [check_best_accuracy, hb]
  · intro a ha
    have : initial_best_acc = -1 := rfl
    rw [this]
    linarith
  · intro cfg o db rank st e
    rw [runEpoch_best_acc]
    split
    · by_cases hb : st.best_acc < o.valTop1 e
      · simp only [check_best_accuracy, if_pos hb]
        exact le_of_lt hb
      · simp [check_best_accuracy, hb]
    · exact le_refl _

theorem c5_best_tracker_witness :
    (check_best_accuracy 0 0).1 = 0
    ∧ (check_best_accuracy 0 0).2 = false
    ∧ (∀ y b : Metric, (check_best_accuracy y b).1 = max y b)
    ∧ (∀ y b : Metric, (check_best_accuracy y b).2 = decide (b < y))
    ∧ (∀ y b : Metric, b ≤ (check_best_accuracy y b).1)
    ∧ initState.best_acc = initial_best_acc
    ∧ (∀ a : Metric, 0 ≤ a → initial_best_acc < a)
    ∧ (∀ (cfg : RunConfig) (o : Oracle) (db : Option Database) (rank : Nat)
         (st : TrainerState) (e : Nat),
         st.best_acc ≤ (runEpoch cfg o db rank st e).1.best_acc) :=
  c5_best_tracker 0 0 (le_refl 0)

/-- C6 counterexample: run `num_epochs = 3`, `save_freq = 2` from scratch:
after 3 completed epochs the train history has 3 entries but the val
history has only 2 (epoch 1 is not gated), so it is not the case that a
val entry was appended for every epoch. -/
theorem c6_counterexample :
    (train ⟨3, 2, "exp"⟩ oracle0 (some db0) 0 initState).1.results.lossesTrain.length = 3
    ∧ (train ⟨3, 2, "exp"⟩ oracle0 (some db0) 0 initState).1.results.lossesVal.length = 2
    ∧ (2 : Nat) ≠ 3 := by
  refine ⟨by decide, by decide, by decide⟩

/-- C6 (amended): the history is append-only and ordered by epoch: each
epoch appends exactly one train entry, and appends a val entry exactly
when the validation gate holds at that epoch (earlier entries are never
rewritten); after a full `N`-epoch run the train history has `N` entries
and the val history has `ceil((N-1)/F) + 1` entries. -/
theorem c6_history_append_only (cfg : RunConfig) (o : Oracle)
    (db : Option Database) (rank : Nat) (st : TrainerState) (e : Nat)
    (hF : 0 < cfg.save_freq) (hN : 0 < cfg.num_epochs) :
    ((runEpoch cfg o db rank st e).1.results.lossesTrain =
       st.results.lossesTrain ++ [o.trainLoss e])
    ∧ ((runEpoch cfg o db rank st e).1.results.lossesVal =
       st.results.lossesVal ++
         (if validateGate e cfg.save_freq cfg.num_epochs then [o.valLoss e]
          else []))
    ∧ ((train cfg o db rank initState).1.results.lossesTrain.length =
        cfg.num_epochs)
    ∧ ((train cfg o db rank initState).1.results.lossesVal.length =
        (cfg.num_epochs - 1 + cfg.save_freq - 1) / cfg.save_freq + 1) := by
  refine ⟨runEpoch_lossesTrain cfg o db rank st e,
          runEpoch_lossesVal cfg o db rank st e, ?_, ?_⟩
  · simp only [train]
    rw [runEpochs_lossesTrain_len cfg o db rank _ _ _]
    have h0 : initState.current_epoch = 0 := rfl
    have hl : initState.results.lossesTrain.length = 0 := rfl
    rw [h0, hl, Nat.sub_zero, Nat.zero_add]
  · simp only [train]
    rw [runEpochs_lossesVal_len cfg o db rank _ _ _]
    have h0 : initState.current_epoch = 0 := rfl
    rw [h0, Nat.sub_zero, ← List.range_eq_range']
    have hl : initState.results.lossesVal.length = 0 := rfl
    rw [hl, Nat.zero_add]
    exact gate_count cfg.save_freq cfg.num_epochs hF hN

theorem c6_history_append_only_witness :
    ((runEpoch ⟨10, 3, "exp"⟩ oracle0 (some db0) 0 initState 0).1.results.lossesTrain =
       initState.results.lossesTrain ++ [oracle0.trainLoss 0])
    ∧ ((runEpoch ⟨10, 3, "exp"⟩ oracle0 (some db0) 0 initState 0).1.results.lossesVal =
       initState.results.lossesVal ++
         (if validateGate 0 3 10 then [oracle0.valLoss 0] else []))
    ∧ ((train ⟨10, 3, "exp"⟩ oracle0 (some db0) 0 initState).1.results.lossesTrain.length = 10)
    ∧ ((train ⟨10, 3, "exp"⟩ oracle0 (some db0) 0 initState).1.results.lossesVal.length =
        (10 - 1 + 3 - 1) / 3 + 1) :=
  c6_history_append_only ⟨10, 3, "exp"⟩ oracle0 (some db0) 0 initState 0
    (by decide) (by decide)

/-- C7 counterexample: run `num_epochs = 3`, `save_freq = 2` with val
top-1 accuracy 1 at epoch 0 and 0 afterwards: the save at epoch 1
consumes `is_best = true` although the gate is false at epoch 1 (no
best-tracker update ran that epoch — the value is carried over from
epoch 0; a same-epoch update would have returned `false`). -/
theorem c7_counterexample :
    consumedBests (train ⟨3, 2, "exp"⟩ oracleC7 (some db0) 0 initState).2 =
      [true, true, false]
    ∧ validateGate 1 2 3 = false
    ∧ (check_best_accuracy (oracleC7.valTop1 1) 1).2 = false := by
  refine ⟨by decide, by decide, by decide⟩

/-- C7 (amended): the is-best flag consumed by the checkpoint save at
epoch `e` is the result of that same epoch's best-tracker update exactly
when the validation gate holds at `e`; at non-gated epochs the save
consumes the flag unchanged from the most recent gated epoch (initially
`False`). -/
theorem c7_is_best_consumption (cfg : RunConfig) (o : Oracle)
    (db : Option Database) (rank : Nat) (st : TrainerState) (e : Nat) :
    consumedBests (runEpoch cfg o db rank st e).2 =
      [if validateGate e cfg.save_freq cfg.num_epochs then
         (check_best_accuracy (o.valTop1 e) st.best_acc).2
       else st.is_best]
    ∧ (runEpoch cfg o db rank st e).1.is_best =
        (if validateGate e cfg.save_freq cfg.num_epochs then
           (check_best_accuracy (o.valTop1 e) st.best_acc).2
         else st.is_best) :=
  ⟨runEpoch_consumedBests cfg o db rank st e,
   runEpoch_is_best cfg o db rank st e⟩

/-- C8: `load_checkpoint` fails with the not-found error whenever no file
exists at the configured path; when the file loads, it fails with the
missing-key error whenever any required field (epoch, results, model
state, optimizer state, best value) is absent; otherwise it returns with
all of those fields populated into the trainer state. -/
theorem c8_load_checkpoint_errors (file : Option CheckpointFile)
    (st : TrainerState) :
    (file = none → load_checkpoint file st = .error .notFound)
    ∧ (∀ cpt, file = some cpt →
        (cpt.epoch = none ∨ cpt.results = none ∨ cpt.state_dict = none ∨
         cpt.optimizer = none ∨ cpt.curr_best_acc = none) →
        load_checkpoint file st = .error .missingKey)
    ∧ (∀ e sd op res b,
        file = some ⟨some e, some sd, some op, some res, some b⟩ →
        load_checkpoint file st =
          .ok { st with
                  current_epoch := e + 1
                  results := res
                  model_state := sd
                  optimizer_state := op
                  best_acc := b }) := by
  refine ⟨?_, ?_, ?_⟩
  · rintro rfl
    rfl
  · rintro ⟨eo, sdo, opo, reso, bo⟩ rfl hmiss
    cases eo <;> cases sdo <;> cases opo <;> cases reso <;> cases bo <;>
      first
        | rfl
        | simp_all [load_checkpoint]
  · rintro e sd op res b rfl
    rfl

theorem c8_load_checkpoint_errors_witness :
    (load_checkpoint none initState = .error .notFound)
    ∧ (load_checkpoint (some ⟨none, none, none, none, none⟩) initState =
        .error .missingKey)
    ∧ (load_checkpoint (some ⟨some 5, some 7, some 8, some Results.empty, some 1⟩)
        initState =
        .ok { initState with
                current_epoch := 6
                results := Results.empty
                model_state := 7
                optimizer_state := 8
                best_acc := 1 }) :=
  ⟨(c8_load_checkpoint_errors none initState).1 rfl,
   (c8_load_checkpoint_errors (some ⟨none, none, none, none, none⟩)
      initState).2.1 _ rfl (Or.inl rfl),
   (c8_load_checkpoint_errors
      (some ⟨some 5, some 7, some 8, some Results.empty, some 1⟩)
      initState).2.2 5 7 8 Results.empty 1 rfl⟩

/-- C9: every record pushed to the metadata store carries exactly the
keys `exp_id`, `epoch`, `results`, `curr_best_acc` — never the model
state blob and never the optimizer state blob — the push happens only on
rank 0 (with a database configured), and the checkpoint state is
unaffected by the push. -/
theorem c9_db_record_shape (eid : String) (c : CheckpointState) (rank : Nat)
    (db : Option Database) :
    ((mkDbRecord eid c).map Prod.fst =
       [RKey.exp_id, RKey.ckey .epoch, RKey.ckey .results,
        RKey.ckey .curr_best_acc])
    ∧ (∀ p ∈ mkDbRecord eid c,
        p.1 ≠ RKey.ckey .state_dict ∧ p.1 ≠ RKey.ckey .optimizer)
    ∧ ((save_to_db 0 db eid c).1 =
        if db.isSome then [mkDbRecord eid c] else [])
    ∧ (rank ≠ 0 → (save_to_db rank db eid c).1 = [])
    ∧ ((save_to_db rank db eid c).2 = c) := by
  refine ⟨rfl, ?_, ?_, ?_, rfl⟩
  · intro p hp
    simp only [mkDbRecord, save_keys, List.map_cons, List.map_nil,
      List.mem_cons, List.not_mem_nil, or_false] at hp
    rcases hp with h | h | h | h <;> subst h <;>
      exact ⟨by simp, by simp⟩
  · simp [save_to_db]
  · intro h
    simp [save_to_db, h]


theorem c9_db_record_shape_witness :
    ((save_to_db 1 (some db0) "exp" (mkCurrState initState)).1 = [])
    ∧ ((save_to_db 1 (some db0) "exp" (mkCurrState initState)).2 =
        mkCurrState initState)
    ∧ (∀ p ∈ mkDbRecord "exp" (mkCurrState initState),
        p.1 ≠ RKey.ckey .state_dict ∧ p.1 ≠ RKey.ckey .optimizer) :=
  ⟨(c9_db_record_shape "exp" (mkCurrState initState) 1 (some db0)).2.2.2.1
     (by decide),
   (c9_db_record_shape "exp" (mkCurrState initState) 1 (some db0)).2.2.2.2,
   (c9_db_record_shape "exp" (mkCurrState initState) 1 (some db0)).2.1⟩

/-- C10: `Trainer.__init__` requires `db_name`, `coll_name`, `exp_id` to
be present and non-None even when the metadata store is disabled
(`use_mongodb = False`); if any is missing or None, construction fails
(before training starts); with the keys present and the store disabled,
construction yields no database handle, and all metadata-store pushes and
the final close are silent no-ops. -/
theorem c10_config_requirements (cfg : DbConfig) :
    ((cfg.db_name = none ∨ cfg.coll_name = none ∨ cfg.exp_id = none ∨
      cfg.db_name = some none ∨ cfg.coll_name = some none ∨
      cfg.exp_id = some none) →
      ∃ err, trainer_init_db cfg = .error err)
    ∧ (∀ dbv cv ev, cfg.db_name = some (some dbv) →
        cfg.coll_name = some (some cv) → cfg.exp_id = some (some ev) →
        cfg.use_mongodb = false → trainer_init_db cfg = .ok none)
    ∧ (∀ (rank : Nat) (eid : String) (c : CheckpointState),
        (save_to_db rank none eid c).1 = [])
    ∧ (∀ rank : Nat, close_db rank none = []) := by
  obtain ⟨dbn, cn, ei, um, po⟩ := cfg
  refine ⟨?_, ?_, ?_, ?_⟩
  · intro hmiss
    rcases dbn with _ | _ | dbv <;> rcases cn with _ | _ | cv <;>
      rcases ei with _ | _ | ev <;>
      simp_all [trainer_init_db]
  · intro dbv cv ev h1 h2 h3 h4
    simp only at h1 h2 h3 h4
    subst h1; subst h2; subst h3; subst h4
    rfl
  · intro rank eid c
    simp [save_to_db]
  · intro rank
    simp [close_db]

theorem c10_config_requirements_witness :
    (∃ err, trainer_init_db ⟨none, some (some "c"), some (some "e"), false,
       none⟩ = .error err)
    ∧ (trainer_init_db ⟨some (some "d"), some (some "c"), some (some "e"),
         false, none⟩ = .ok none)
    ∧ ((save_to_db 0 none "e" (mkCurrState initState)).1 = [])
    ∧ (close_db 0 none = []) :=
  ⟨(c10_config_requirements ⟨none, some (some "c"), some (some "e"), false,
      none⟩).1 (Or.inl rfl),
   (c10_config_requirements ⟨some (some "d"), some (some "c"),
      some (some "e"), false, none⟩).2.1 "d" "c" "e" rfl rfl rfl rfl,
   (c10_config_requirements ⟨some (some "d"), some (some "c"),
      some (some "e"), false, none⟩).2.2.1 0 "e" (mkCurrState initState),
   (c10_config_requirements ⟨some (some "d"), some (some "c"),
      some (some "e"), false, none⟩).2.2.2 0⟩

/-- C4 counterexample: in the Mesh (TPU) topology the per-batch value
folded into the running meter is the worker's local value, not the
cluster-wide reduction: with two workers whose local batch values are
0 and 2, worker 0 folds 0 while the cluster-wide per-batch value is 1,
and worker 0's running epoch metric is 0 ≠ 1. -/
theorem c4_counterexample :
    repValue .mesh [0, 2] 0 = 0
    ∧ reduce_metric [0, 2] = 1
    ∧ (foldBatches .mesh [[0, 2]] 0 4).avg = 0
    ∧ (foldBatches .multiProcess [[0, 2]] 0 4).avg = 1
    ∧ (0 : Metric) ≠ 1 := by
  refine ⟨rfl, ?_, ?_, ?_, by norm_num⟩
  · norm_num [reduce_metric]
  · norm_num [foldBatches, repValue, AverageMeter.update, AverageMeter.avg]
  · norm_num [foldBatches, repValue, AverageMeter.update, AverageMeter.avg,
      reduce_metric]

/-- C4 (amended): the per-batch metric values are reduced to the
cluster-wide mean before being folded into the running epoch averages
only in the MultiProcess topology — where, consequently, every worker
folds identical values and builds identical running meters — while in
the Mesh topology each worker folds its own local per-batch value and
the cluster-wide value is obtained only at epoch end, by mesh-reducing
the per-worker epoch averages.  Spec section 8 scenario: 2 workers,
3 batches of weight 4 with per-worker losses (1,2), (3,4), (5,6) give
reduced per-batch values 3/2, 7/2, 11/2 and MultiProcess epoch average
7/2; and a one-batch Mesh run over local values (0,2) reaches the same
cluster mean 1 only at epoch end. -/
theorem c4_metric_reduction (batches : List (List Metric)) (w w' n : Nat) :
    (∀ locals : List Metric,
       repValue .multiProcess locals w = reduce_metric locals)
    ∧ foldBatches .multiProcess batches w n =
        foldBatches .multiProcess batches w' n
    ∧ (∀ locals : List Metric, repValue .mesh locals w = locals.getD w 0)
    ∧ epochAverage .mesh batches 2 n =
        mesh_reduce [(foldBatches .mesh batches 0 n).avg,
                     (foldBatches .mesh batches 1 n).avg]
    ∧ [[(1 : Metric), 2], [3, 4], [5, 6]].map reduce_metric =
        [3 / 2, 7 / 2, 11 / 2]
    ∧ epochAverage .multiProcess [[1, 2], [3, 4], [5, 6]] 2 4 = 7 / 2
    ∧ epochAverage .mesh [[0, 2]] 2 1 = 1 := by
  refine ⟨fun _ => rfl, rfl, fun _ => rfl, rfl, ?_, ?_, ?_⟩
  · norm_num [reduce_metric]
  · norm_num [epochAverage, foldBatches, repValue, AverageMeter.update,
      AverageMeter.avg, reduce_metric]
  · norm_num [epochAverage, foldBatches, repValue, AverageMeter.update,
      AverageMeter.avg, mesh_reduce, List.range_succ]
